import Mathlib

/- Verification of the DXF analysis core (backend/main.py): geometric sampling,
   phantom-entity classification, design statistics and result aggregation.
   Coordinates are modelled as real numbers (the idealisation of the float
   arithmetic used by the code); reason strings keep the code's literal text,
   except that numeric interpolations inside messages are elided (a real number
   has no canonical decimal rendering).  A possibly missing layer attribute is
   modelled as an Option, mirroring the attribute access that the code guards
   inside the classifier but not in the aggregation loop. -/

namespace Backend

noncomputable section

/-- Point with float (modelled as real) coordinates, from class Point. -/
structure Point where
  x : ℝ
  y : ℝ

instance : Inhabited Point := ⟨⟨0, 0⟩⟩

/-- Euclidean distance, from Point.distance_to. -/
def Point.distance_to (p q : Point) : ℝ :=
  Real.sqrt ((p.x - q.x) ^ 2 + (p.y - q.y) ^ 2)

/-- Axis-aligned bounding box, from class BoundingBox. -/
structure BoundingBox where
  min_x : ℝ
  min_y : ℝ
  max_x : ℝ
  max_y : ℝ

/-- BoundingBox.width. -/
def BoundingBox.width (b : BoundingBox) : ℝ := b.max_x - b.min_x

/-- BoundingBox.height. -/
def BoundingBox.height (b : BoundingBox) : ℝ := b.max_y - b.min_y

/-- The geometric payload of a decoded DXF entity.  `other` covers the
    entity types the pipeline does not recognise (SPLINE, TEXT, ...). -/
inductive EntityData where
  | line (startp stopp : Point)
  | lwpolyline (pts : List Point)
  | polyline (pts : List Point)
  | circle (center : Point) (radius : ℝ)
  | arc (center : Point) (radius : ℝ) (start_angle end_angle : ℝ)
  | other (tag : String)

/-- A decoded entity: geometry plus the metadata the classifier reads.
    `layer = none` models an entity whose layer attribute is missing, the
    exception source the classifier guards against; arc angles are stored in
    degrees as in the DXF source. -/
structure Entity where
  data : EntityData
  layer : Option String
  invisible : Bool

/-- entity.dxftype(). -/
def Entity.dxftype (e : Entity) : String :=
  match e.data with
  | .line _ _ => "LINE"
  | .lwpolyline _ => "LWPOLYLINE"
  | .polyline _ => "POLYLINE"
  | .circle _ _ => "CIRCLE"
  | .arc _ _ _ _ => "ARC"
  | .other tag => tag

/-- The recognised-type list used in process_dxf_file and
    get_design_statistics. -/
def recognized_types : List String :=
  ["LINE", "LWPOLYLINE", "POLYLINE", "CIRCLE", "ARC"]

/-- dxftype membership test used by the pipeline loop and the estimator. -/
def is_recognized (e : Entity) : Bool :=
  recognized_types.contains e.dxftype

/-- math.radians: degrees to radians. -/
def radians (d : ℝ) : ℝ := d * Real.pi / 180

/-- DXFProcessor.get_entity_points: per-type sampling.  Lines give their two
    endpoints, polylines their vertex lists, circles 16 points at angles
    2·pi·i/16, arcs 17 points interpolating the raw signed angular difference
    converted to radians; unrecognised types yield no points. -/
def get_entity_points (e : Entity) : List Point :=
  match e.data with
  | .line s t => [s, t]
  | .lwpolyline ps => ps
  | .polyline ps => ps
  | .circle c r =>
      (List.range 16).map fun i : ℕ =>
        ⟨c.x + r * Real.cos (2 * Real.pi * (i : ℝ) / 16),
         c.y + r * Real.sin (2 * Real.pi * (i : ℝ) / 16)⟩
  | .arc c r sa ea =>
      (List.range 17).map fun i : ℕ =>
        ⟨c.x + r * Real.cos (radians sa + (radians ea - radians sa) * (i : ℝ) / 16),
         c.y + r * Real.sin (radians sa + (radians ea - radians sa) * (i : ℝ) / 16)⟩
  | .other _ => []

/-- Sum of consecutive-segment distances (the polyline length loop). -/
def path_length : List Point → ℝ
  | p :: q :: rest => p.distance_to q + path_length (q :: rest)
  | _ => 0

/-- DXFProcessor.calculate_entity_length: line = endpoint distance, polyline =
    summed segments, circle = 2·pi·r in closed form, arc = raw angular
    difference (radians) times radius in closed form; anything else 0. -/
def calculate_entity_length (e : Entity) (points : List Point) : ℝ :=
  match e.data with
  | .line _ _ =>
      if h : 2 ≤ points.length then
        (points.get ⟨0, by omega⟩).distance_to (points.get ⟨1, by omega⟩)
      else 0
  | .lwpolyline _ => path_length points
  | .polyline _ => path_length points
  | .circle _ r => 2 * Real.pi * r
  | .arc _ r sa ea => |radians ea - radians sa| * r
  | .other _ => 0

/-- Python str.upper(), modelled character-wise over the string's characters
    (layer names are ASCII, where the two agree). -/
def upper (s : String) : String := ⟨s.data.map Char.toUpper⟩

/-- The fixed phantom-layer rejection set. -/
def phantom_layers : List String :=
  ["DEFPOINTS", "PHANTOM", "HIDDEN", "CONSTRUCTION", "TEMP"]

/-- The line-only rules of is_phantom_entity (origin contact, excessive
    length, distance from the design center), returning the rejection reason
    of the first rule that fires. -/
def line_check (points : List Point) (design_center : Point)
    (max_design_dimension : ℝ) : Option String :=
  if h : 2 ≤ points.length then
    let s := points.get ⟨0, by omega⟩
    let t := points.get ⟨1, by omega⟩
    if (|s.x| < 0.001 ∧ |s.y| < 0.001) ∨ (|t.x| < 0.001 ∧ |t.y| < 0.001) then
      some "Línea conecta con origen (0,0)"
    else if s.distance_to t > max_design_dimension * 10 then
      some "Línea demasiado larga"
    else
      let line_center : Point := ⟨(s.x + t.x) / 2, (s.y + t.y) / 2⟩
      if line_center.distance_to design_center > max_design_dimension * 5 then
        some "Línea alejada del diseño"
      else none
  else none

/-- DXFProcessor.is_phantom_entity: ordered rules with first-match semantics.
    A missing layer attribute is the modelled rule-evaluation failure, caught
    and degraded to a phantom verdict as by the except branch of the code. -/
def is_phantom_entity (e : Entity) (points : List Point) (design_center : Point)
    (max_design_dimension : ℝ) : Bool × String :=
  if points.isEmpty then
    (true, "Sin puntos válidos")
  else
    match e.layer with
    | none => (true, "Error procesando entidad: missing layer attribute")
    | some ly =>
      let layer_name := upper ly
      if layer_name ∈ phantom_layers then
        (true, "Capa fantasma: " ++ layer_name)
      else if e.invisible then
        (true, "Entidad invisible")
      else
        match (if e.dxftype = "LINE" then
                 line_check points design_center max_design_dimension
               else none) with
        | some reason => (true, reason)
        | none =>
          if points.any (fun p => decide ((50000 : ℝ) < |p.x| ∨ (50000 : ℝ) < |p.y|)) then
            (true, "Coordenadas extremas")
          else
            (false, "Entidad válida")

/-- Minimum of a list of reals, head-initialised as the code's min(...). -/
def list_min : List ℝ → ℝ
  | [] => 0
  | x :: xs => xs.foldl min x

/-- Maximum of a list of reals, head-initialised as the code's max(...). -/
def list_max : List ℝ → ℝ
  | [] => 0
  | x :: xs => xs.foldl max x

/-- The sample-point pool of get_design_statistics: every point of every
    recognised entity, in order. -/
def all_sample_points (entities : List Entity) : List Point :=
  (entities.filter (fun e => is_recognized e)).flatMap get_entity_points

/-- The centroid/extent computation of get_design_statistics as a function of
    the collected sample-point pool. -/
def design_stats_of (all_points : List Point) : Point × ℝ :=
  if all_points.isEmpty then
    (⟨0, 0⟩, 1000)
  else
    let n : ℝ := all_points.length
    let center : Point :=
      ⟨(all_points.map Point.x).sum / n, (all_points.map Point.y).sum / n⟩
    let xs := all_points.map Point.x
    let ys := all_points.map Point.y
    (center, max (list_max xs - list_min xs) (list_max ys - list_min ys))

/-- DXFProcessor.get_design_statistics: point-weighted centroid and maximum
    extent over the sample points of every recognised entity, with the
    (0,0)/1000 fallback for an empty sample set. -/
def get_design_statistics (entities : List Entity) : Point × ℝ :=
  design_stats_of (all_sample_points entities)

/-- One record of the output detail lists, from class ProcessedEntity. -/
structure ProcessedEntity where
  entity_type : String
  points : List Point
  length : ℝ
  layer : String
  is_valid : Bool
  rejection_reason : Option String

/-- DXFProcessor.calculate_bounding_box over the valid records, with the
    degenerate box for an empty input. -/
def calculate_bounding_box (entities : List ProcessedEntity) : BoundingBox :=
  if entities.isEmpty then ⟨0, 0, 0, 0⟩
  else
    let all_points := entities.flatMap ProcessedEntity.points
    if all_points.isEmpty then ⟨0, 0, 0, 0⟩
    else
      ⟨list_min (all_points.map Point.x), list_min (all_points.map Point.y),
       list_max (all_points.map Point.x), list_max (all_points.map Point.y)⟩

/-- The processor's mutable instance state: self.valid_entities and
    self.phantom_entities. -/
structure ProcState where
  valid_entities : List ProcessedEntity
  phantom_entities : List ProcessedEntity

/-- The reset performed at the start of process_dxf_file. -/
def reset_lists : ProcState := ⟨[], []⟩

/-- One iteration of the processing loop of process_dxf_file: skip
    unrecognised types, skip entities whose sampling yields no points,
    otherwise classify and append the processed record to the matching list.
    Reading the layer for the output record is unguarded in the code, so a
    missing layer raises out of the loop: modelled as the error case. -/
def process_entity_step (design_center : Point) (max_design_dimension : ℝ)
    (s : ProcState) (e : Entity) : Except String ProcState :=
  if is_recognized e = false then .ok s
  else
    let points := get_entity_points e
    if points.isEmpty then .ok s
    else
      let verdict := is_phantom_entity e points design_center max_design_dimension
      match e.layer with
      | none => .error "AttributeError: layer"
      | some ly =>
        let pe : ProcessedEntity :=
          ⟨e.dxftype, points, calculate_entity_length e points, ly, !verdict.1,
           if verdict.1 then some verdict.2 else none⟩
        .ok (if verdict.1 then ⟨s.valid_entities, s.phantom_entities ++ [pe]⟩
             else ⟨s.valid_entities ++ [pe], s.phantom_entities⟩)

/-- The processed record the loop body builds for an entity it classifies
    (the ProcessedEntity constructor call of process_dxf_file). -/
def processed_of (c : Point) (m : ℝ) (e : Entity) (ly : String) : ProcessedEntity :=
  ⟨e.dxftype, get_entity_points e,
   calculate_entity_length e (get_entity_points e), ly,
   !(is_phantom_entity e (get_entity_points e) c m).1,
   if (is_phantom_entity e (get_entity_points e) c m).1 then
     some (is_phantom_entity e (get_entity_points e) c m).2
   else none⟩

/-- Whether the loop classifies an entity at all (recognised type and a
    nonempty sample), rather than skipping it. -/
def counts_processed (e : Entity) : Bool :=
  is_recognized e && !(get_entity_points e).isEmpty

/-- The processing loop over all entities; the first uncaught per-entity
    error aborts the remainder, as an exception propagating out of the
    for-loop does. -/
def run_entities (design_center : Point) (max_design_dimension : ℝ) :
    ProcState → List Entity → Except String ProcState
  | s, [] => .ok s
  | s, e :: rest =>
    match process_entity_step design_center max_design_dimension s e with
    | .error m => .error m
    | .ok s2 => run_entities design_center max_design_dimension s2 rest

/-- The successful result record assembled by process_dxf_file. -/
structure AnalysisOk where
  total_entities : ℕ
  valid_count : ℕ
  phantom_count : ℕ
  design_center : Point
  max_design_dimension : ℝ
  bounding_box : BoundingBox
  total_mm : ℝ
  total_m : ℝ
  valid : List ProcessedEntity
  phantom : List ProcessedEntity

/-- The overall outcome: the success record, or the error record produced by
    the catch-all except branch of process_dxf_file. -/
inductive AnalysisResult where
  | ok (r : AnalysisOk)
  | failure (error : String)

/-- Python round(x, n) on the idealised reals: round half up is used where
    the float round would break ties to even; no claim depends on a tie. -/
def round_to (n : ℕ) (x : ℝ) : ℝ := ((round (x * 10 ^ n) : ℤ) : ℝ) / 10 ^ n

/-- Reading the processor state into the result record: counts, bounding box
    over valid records, and the cut-length totals (mm rounded to 2 decimals,
    m rounded to 3). -/
def finalize (total : ℕ) (design_center : Point) (max_design_dimension : ℝ)
    (s : ProcState) : AnalysisOk :=
  let total_cut_length := (s.valid_entities.map ProcessedEntity.length).sum
  ⟨total, s.valid_entities.length, s.phantom_entities.length,
   design_center, max_design_dimension,
   calculate_bounding_box s.valid_entities,
   round_to 2 total_cut_length,
   round_to 3 (total_cut_length / 1000),
   s.valid_entities, s.phantom_entities⟩

/-- DXFProcessor.process_dxf_file after decoding: design statistics over all
    entities, the classification loop from freshly reset lists, then the
    result record; an uncaught loop error becomes the failure record. -/
def process_dxf_file (all_entities : List Entity) : AnalysisResult :=
  let stats := get_design_statistics all_entities
  match run_entities stats.1 stats.2 reset_lists all_entities with
  | .error m => .failure m
  | .ok s => .ok (finalize all_entities.length stats.1 stats.2 s)

/-- One full analysis executed on the shared processor instance starting from
    whatever state s0 a previous analysis left: the initial reset discards
    s0, then the loop and the finalisation run as usual.  Returns the shared
    state it leaves behind together with its result. -/
def analysis_on_shared (s0 : ProcState) (es : List Entity) :
    ProcState × AnalysisResult :=
  let _ := s0
  let stats := get_design_statistics es
  match run_entities stats.1 stats.2 reset_lists es with
  | .error m => (reset_lists, .failure m)
  | .ok s => (s, .ok (finalize es.length stats.1 stats.2 s))

/-- The result analysis A observes when analysis B runs on the shared
    processor instance between A's loop and A's read of the instance lists:
    B's reset clobbers A's appended records, and A finalises from the state B
    left. -/
def interleaved_result_A (esA esB : List Entity) : AnalysisResult :=
  let statsA := get_design_statistics esA
  let statsB := get_design_statistics esB
  match run_entities statsA.1 statsA.2 reset_lists esA with
  | .error m => .failure m
  | .ok _ =>
    match run_entities statsB.1 statsB.2 reset_lists esB with
    | .error m => .failure m
    | .ok sB => .ok (finalize esA.length statsA.1 statsA.2 sB)

/-- Whether the analysis produced the success record. -/
def AnalysisResult.isOk : AnalysisResult → Bool
  | .ok _ => true
  | .failure _ => false

/-- total_entities of a successful result, 0 on failure. -/
def result_total_entities : AnalysisResult → ℕ
  | .ok r => r.total_entities
  | .failure _ => 0

/-- valid count of a successful result, 0 on failure. -/
def result_valid_count : AnalysisResult → ℕ
  | .ok r => r.valid_count
  | .failure _ => 0

/-- phantom count of a successful result, 0 on failure. -/
def result_phantom_count : AnalysisResult → ℕ
  | .ok r => r.phantom_count
  | .failure _ => 0

/-- phantom detail list of a successful result, empty on failure. -/
def result_phantom_list : AnalysisResult → List ProcessedEntity
  | .ok r => r.phantom
  | .failure _ => []

/-- valid detail list of a successful result, empty on failure. -/
def result_valid_list : AnalysisResult → List ProcessedEntity
  | .ok r => r.valid
  | .failure _ => []

/-- A recognised polyline without vertices: its sampling is empty. -/
def lw0 : Entity := ⟨.lwpolyline [], some "0", false⟩

/-- An unrecognised entity (a spline). -/
def spline1 : Entity := ⟨.other "SPLINE", some "0", false⟩

/-- A line on the phantom layer DEFPOINTS. -/
def dline : Entity := ⟨.line ⟨10, 0⟩ ⟨20, 0⟩, some "DEFPOINTS", false⟩

/-- A line whose layer attribute is missing. -/
def bad_line : Entity := ⟨.line ⟨1, 1⟩ ⟨2, 2⟩, none, false⟩

/-- An ordinary line on a cutting layer. -/
def good_line : Entity := ⟨.line ⟨10, 0⟩ ⟨20, 0⟩, some "CUT", false⟩

/-- A line touching the origin, on the phantom layer DEFPOINTS. -/
def origin_defpoints_line : Entity := ⟨.line ⟨0, 0⟩ ⟨10, 0⟩, some "DEFPOINTS", false⟩

/-- A line touching the origin on an ordinary layer. -/
def origin_cut_line : Entity := ⟨.line ⟨0, 0⟩ ⟨10, 0⟩, some "CUT", false⟩

/-- A line on the phantom layer written in lower case. -/
def dl2 : Entity := ⟨.line ⟨10, 0⟩ ⟨20, 0⟩, some "defpoints", false⟩

/-- A unit circle centred at the origin. -/
def circle0 : Entity := ⟨.circle ⟨0, 0⟩ 1, some "0", false⟩

/-- A quarter arc of radius 2. -/
def arc0 : Entity := ⟨.arc ⟨0, 0⟩ 2 0 90, some "0", false⟩

/-- The processed record the pipeline builds for dline. -/
def dline_pe : ProcessedEntity :=
  ⟨"LINE", get_entity_points dline,
   calculate_entity_length dline (get_entity_points dline),
   "DEFPOINTS", false, some "Capa fantasma: DEFPOINTS"⟩

end

/-! ### Helper lemmas shared by several claims -/

/-- The empty-point rule of the classifier. -/
theorem empty_points_verdict (e : Entity) (dc : Point) (md : ℝ) :
    is_phantom_entity e [] dc md = (true, "Sin puntos válidos") := by
  simp [is_phantom_entity]

/-- The layer rule of the classifier: with a nonempty sample and a layer in
    the rejection set it fires with the layer reason. -/
theorem layer_phantom_verdict (e : Entity) (ly : String) (pts : List Point)
    (dc : Point) (md : ℝ) (hl : e.layer = some ly)
    (hmem : upper ly ∈ phantom_layers) (hp : pts.isEmpty = false) :
    is_phantom_entity e pts dc md = (true, "Capa fantasma: " ++ upper ly) := by
  simp [is_phantom_entity, hp, hl, hmem]

/-! ### Claim C4 -/

/-- Claim C4: a primitive whose upper-cased layer name belongs to
    {DEFPOINTS, PHANTOM, HIDDEN, CONSTRUCTION, TEMP} is classified phantom
    regardless of its geometry, and whenever the layer rule is the first
    matching rule (the sample is nonempty, so the empty-point rule did not
    fire) the reason carries the layer name. -/
theorem C4_phantom_layer (e : Entity) (ly : String) (pts : List Point)
    (dc : Point) (md : ℝ) (hl : e.layer = some ly)
    (hmem : upper ly ∈ phantom_layers) :
    (is_phantom_entity e pts dc md).1 = true ∧
    (pts.isEmpty = false →
      is_phantom_entity e pts dc md = (true, "Capa fantasma: " ++ upper ly)) := by
  constructor
  · by_cases hp : pts.isEmpty
    · simp [is_phantom_entity, hp]
    · rw [layer_phantom_verdict e ly pts dc md hl hmem (by simpa using hp)]
  · intro hp
    exact layer_phantom_verdict e ly pts dc md hl hmem hp

/-- Witness for C4 at a lower-case layer name, checking the case-insensitive
    match. -/
theorem C4_phantom_layer_witness :
    is_phantom_entity dl2 (get_entity_points dl2) ⟨0, 0⟩ 1000 =
      (true, "Capa fantasma: " ++ upper "defpoints") :=
  (C4_phantom_layer dl2 "defpoints" (get_entity_points dl2) ⟨0, 0⟩ 1000 rfl
    (by decide)).2 rfl

/-! ### Claim C3 -/

/-- Claim C3 counterexample: a line with an endpoint exactly at the origin
    but lying on layer DEFPOINTS is classified phantom by the earlier layer
    rule, so the returned reason is the layer reason and not the origin
    reason — the reason does not mention the origin for every layer. -/
theorem C3_counterexample :
    is_phantom_entity origin_defpoints_line
        (get_entity_points origin_defpoints_line) ⟨5, 0⟩ 10 =
      (true, "Capa fantasma: DEFPOINTS") ∧
    ("Capa fantasma: DEFPOINTS" : String) ≠ "Línea conecta con origen (0,0)" := by
  refine ⟨?_, by decide⟩
  exact layer_phantom_verdict origin_defpoints_line "DEFPOINTS"
    (get_entity_points origin_defpoints_line) ⟨5, 0⟩ 10 rfl (by decide) rfl

/-- Claim C3 (amended): a line with an endpoint within 0.001 of the origin in
    both axes is always classified phantom whatever its layer or visibility;
    the reason mentions the origin when no earlier rule (missing layer,
    phantom layer, invisibility) matched first. -/
theorem C3_origin_rule (e : Entity) (s t : Point) (dc : Point) (md : ℝ)
    (hdata : e.data = .line s t)
    (horigin : (|s.x| < 0.001 ∧ |s.y| < 0.001) ∨ (|t.x| < 0.001 ∧ |t.y| < 0.001)) :
    (is_phantom_entity e (get_entity_points e) dc md).1 = true ∧
    (∀ ly, e.layer = some ly → upper ly ∉ phantom_layers → e.invisible = false →
      is_phantom_entity e (get_entity_points e) dc md =
        (true, "Línea conecta con origen (0,0)")) := by
  have hpts : get_entity_points e = [s, t] := by simp [get_entity_points, hdata]
  have hdx : e.dxftype = "LINE" := by simp [Entity.dxftype, hdata]
  have hlc : line_check [s, t] dc md = some "Línea conecta con origen (0,0)" := by
    simp [line_check, horigin]
  constructor
  · rw [hpts]
    cases hl : e.layer with
    | none => simp [is_phantom_entity, hl]
    | some ly =>
      by_cases hmem : upper ly ∈ phantom_layers
      · simp [is_phantom_entity, hl, hmem]
      · by_cases hinv : e.invisible
        · simp [is_phantom_entity, hl, hmem, hinv]
        · simp [is_phantom_entity, hl, hmem, hinv, hdx, hlc]
  · intro ly hly hmem hinv
    rw [hpts]
    simp [is_phantom_entity, hly, hmem, hinv, hdx, hlc]

/-- Witness for C3 at a line from the exact origin on an ordinary layer. -/
theorem C3_origin_rule_witness :
    is_phantom_entity origin_cut_line (get_entity_points origin_cut_line) ⟨5, 0⟩ 10 =
      (true, "Línea conecta con origen (0,0)") :=
  (C3_origin_rule origin_cut_line ⟨0, 0⟩ ⟨10, 0⟩ ⟨5, 0⟩ 10 rfl
    (Or.inl (by norm_num))).2 "CUT" rfl (by decide) rfl

/-! ### Loop evaluation helpers -/

/-- The loop does nothing on an empty input. -/
theorem run_entities_nil (c : Point) (m : ℝ) (s : ProcState) :
    run_entities c m s [] = .ok s := rfl

/-- An unrecognised entity is skipped by the loop. -/
theorem step_unrecognized (c : Point) (m : ℝ) (s : ProcState) (e : Entity)
    (h : is_recognized e = false) : process_entity_step c m s e = .ok s := by
  simp [process_entity_step, h]

/-- A recognised entity with empty sampling is skipped by the loop. -/
theorem step_empty_points (c : Point) (m : ℝ) (s : ProcState) (e : Entity)
    (h : (get_entity_points e).isEmpty = true) :
    process_entity_step c m s e = .ok s := by
  by_cases hr : is_recognized e = false <;> simp [process_entity_step, hr, h]

/-- The loop over entities that are all unrecognised leaves the state
    unchanged. -/
theorem run_entities_skip_all (c : Point) (m : ℝ) (s : ProcState) (es : List Entity)
    (h : ∀ e ∈ es, is_recognized e = false) : run_entities c m s es = .ok s := by
  induction es generalizing s with
  | nil => rfl
  | cons e rest ih =>
    have he := h e (by simp)
    rw [run_entities, step_unrecognized c m s e he]
    exact ih s (fun x hx => h x (by simp [hx]))

/-- Design statistics of an input without recognised entities fall back to
    center (0,0) and maximum dimension 1000. -/
theorem stats_unrecognized (es : List Entity)
    (h : ∀ e ∈ es, is_recognized e = false) :
    get_design_statistics es = (⟨0, 0⟩, 1000) := by
  have hf : es.filter (fun e => is_recognized e) = [] := by
    rw [List.filter_eq_nil_iff]
    intro e he
    simp [h e he]
  simp [get_design_statistics, all_sample_points, design_stats_of, hf]

/-- Finalising from freshly reset lists gives the empty result record. -/
theorem finalize_reset (n : ℕ) (dc : Point) (m : ℝ) :
    finalize n dc m reset_lists = ⟨n, 0, 0, dc, m, ⟨0, 0, 0, 0⟩, 0, 0, [], []⟩ := by
  simp [finalize, reset_lists, calculate_bounding_box, round_to]

/-- Full evaluation of the pipeline on the empty input. -/
theorem eval_empty :
    process_dxf_file [] = .ok ⟨0, 0, 0, ⟨0, 0⟩, 1000, ⟨0, 0, 0, 0⟩, 0, 0, [], []⟩ := by
  have hs := stats_unrecognized [] (by simp)
  simp [process_dxf_file, hs, run_entities_nil, finalize_reset]

/-- Full evaluation of the pipeline on a single unrecognised entity. -/
theorem eval_spline :
    process_dxf_file [spline1] =
      .ok ⟨1, 0, 0, ⟨0, 0⟩, 1000, ⟨0, 0, 0, 0⟩, 0, 0, [], []⟩ := by
  have hrec : is_recognized spline1 = false := by decide
  have hall : ∀ e ∈ [spline1], is_recognized e = false := by
    intro e he
    simp only [List.mem_singleton] at he
    rw [he]
    exact hrec
  have hs := stats_unrecognized [spline1] hall
  have hr := run_entities_skip_all ⟨0, 0⟩ 1000 reset_lists [spline1] hall
  simp [process_dxf_file, hs, hr, finalize_reset]

/-- Full evaluation of the pipeline on a single recognised entity whose
    sampling is empty. -/
theorem eval_lw0 :
    process_dxf_file [lw0] =
      .ok ⟨1, 0, 0, ⟨0, 0⟩, 1000, ⟨0, 0, 0, 0⟩, 0, 0, [], []⟩ := by
  have h1 : is_recognized lw0 = true := by decide
  have h2 : get_entity_points lw0 = [] := rfl
  have hs : get_design_statistics [lw0] = (⟨0, 0⟩, 1000) := by
    simp [get_design_statistics, all_sample_points, design_stats_of, h1, h2]
  have hr : run_entities ⟨0, 0⟩ 1000 reset_lists [lw0] = .ok reset_lists := by
    rw [run_entities, step_empty_points _ _ _ _ (by rw [h2]; rfl)]
    rfl
  simp [process_dxf_file, hs, hr, finalize_reset]

/-! ### Claim C1 -/

/-- Claim C1 counterexample: a recognised primitive (a vertexless polyline)
    whose sampling yields no points is not placed in the phantom partition:
    the analysis succeeds and both partitions are empty, so the primitive was
    silently dropped from both. -/
theorem C1_counterexample :
    (process_dxf_file [lw0]).isOk = true ∧
    result_phantom_list (process_dxf_file [lw0]) = [] ∧
    result_valid_list (process_dxf_file [lw0]) = [] := by
  rw [eval_lw0]
  exact ⟨rfl, rfl, rfl⟩

/-- Claim C1 (amended): a recognised primitive whose sampling yields no
    points does not abort the run — the loop and the design statistics treat
    the input exactly as if the primitive were absent, so it is skipped
    before classification and appears in neither partition (only
    total_entities counts it); the classifier itself, had it been consulted,
    classifies an empty sample as phantom with the no-valid-points reason. -/
theorem C1_empty_sampling_skipped (e : Entity) (pre post : List Entity)
    (cl : Point) (ml : ℝ) (cc : Point) (mc : ℝ) (s : ProcState)
    (hrec : is_recognized e = true) (hpts : get_entity_points e = []) :
    run_entities cl ml s (pre ++ e :: post) = run_entities cl ml s (pre ++ post) ∧
    get_design_statistics (pre ++ e :: post) = get_design_statistics (pre ++ post) ∧
    is_phantom_entity e [] cc mc = (true, "Sin puntos válidos") := by
  refine ⟨?_, ?_, empty_points_verdict e cc mc⟩
  · induction pre generalizing s with
    | nil =>
      simp only [List.nil_append]
      rw [run_entities, step_empty_points cl ml s e (by rw [hpts]; rfl)]
    | cons p rest ih =>
      simp only [List.cons_append, run_entities]
      cases process_entity_step cl ml s p with
      | error m => rfl
      | ok s2 => exact ih s2
  · have key : all_sample_points (pre ++ e :: post) = all_sample_points (pre ++ post) := by
      simp [all_sample_points, List.filter_append, List.flatMap_append, hrec, hpts]
    rw [get_design_statistics, get_design_statistics, key]

/-- Witness for C1 at the vertexless polyline. -/
theorem C1_empty_sampling_skipped_witness :
    run_entities ⟨0, 0⟩ 1000 reset_lists ([] ++ lw0 :: []) =
      run_entities ⟨0, 0⟩ 1000 reset_lists ([] ++ []) ∧
    get_design_statistics ([] ++ lw0 :: []) = get_design_statistics ([] ++ []) ∧
    is_phantom_entity lw0 [] ⟨0, 0⟩ 1000 = (true, "Sin puntos válidos") :=
  C1_empty_sampling_skipped lw0 [] [] ⟨0, 0⟩ 1000 ⟨0, 0⟩ 1000 reset_lists
    (by decide) rfl

/-! ### Claim C2 -/

/-- Processing dline appends its phantom record to the shared state. -/
theorem step_dline (c : Point) (m : ℝ) (s : ProcState) :
    process_entity_step c m s dline =
      .ok ⟨s.valid_entities, s.phantom_entities ++ [dline_pe]⟩ := by
  have h1 : is_recognized dline = true := by decide
  have h2 : get_entity_points dline = [⟨10, 0⟩, ⟨20, 0⟩] := rfl
  have h3 : dline.layer = some "DEFPOINTS" := rfl
  have h4 : dline.dxftype = "LINE" := rfl
  have hu : ("Capa fantasma: " ++ upper "DEFPOINTS") = "Capa fantasma: DEFPOINTS" := by decide
  have hv : is_phantom_entity dline [⟨10, 0⟩, ⟨20, 0⟩] c m =
      (true, "Capa fantasma: DEFPOINTS") := by
    rw [layer_phantom_verdict dline "DEFPOINTS" [⟨10, 0⟩, ⟨20, 0⟩] c m h3 (by decide) rfl, hu]
  simp [process_entity_step, h1, h2, h3, h4, hv, dline_pe]

/-- The loop on the single entity dline from fresh lists. -/
theorem run_dline (c : Point) (m : ℝ) :
    run_entities c m reset_lists [dline] = .ok ⟨[], [dline_pe]⟩ := by
  rw [run_entities, step_dline]
  rfl

/-- Claim C2 counterexample: two overlapping analyses on the shared processor
    instance interfere.  If analysis B (empty input) resets the shared lists
    between analysis A's loop and A's read of those lists, A reports zero
    phantom entities although in isolation it reports one. -/
theorem C2_counterexample :
    interleaved_result_A [dline] [] ≠ process_dxf_file [dline] := by
  intro hcontra
  have h1 : interleaved_result_A [dline] [] =
      .ok (finalize 1 (get_design_statistics [dline]).1
        (get_design_statistics [dline]).2 reset_lists) := by
    simp [interleaved_result_A, run_dline, run_entities_nil]
  have h2 : process_dxf_file [dline] =
      .ok (finalize 1 (get_design_statistics [dline]).1
        (get_design_statistics [dline]).2 ⟨[], [dline_pe]⟩) := by
    simp [process_dxf_file, run_dline]
  rw [h1, h2] at hcontra
  have h3 := congrArg result_phantom_count hcontra
  simp [result_phantom_count, finalize, reset_lists] at h3

/-- Claim C2 (amended): the two partition lists are shared mutable state of
    the module-level processor instance, but every analysis starts by
    resetting them, so any analysis run on the shared instance — whatever
    state s0 an earlier, non-overlapping analysis left — returns exactly the
    result of an isolated run.  (Overlapping runs can interfere, as the
    counterexample shows.) -/
theorem C2_sequential_isolated (s0 : ProcState) (es : List Entity) :
    (analysis_on_shared s0 es).2 = process_dxf_file es := by
  cases h : run_entities (get_design_statistics es).1 (get_design_statistics es).2
      reset_lists es with
  | error m => simp [analysis_on_shared, process_dxf_file, h]
  | ok s => simp [analysis_on_shared, process_dxf_file, h]

/-! ### Loop step characterisation -/

/-- Unfolding one successful loop iteration. -/
theorem run_entities_cons_ok (c : Point) (m : ℝ) (s : ProcState) (e : Entity)
    (rest : List Entity) (s1 : ProcState)
    (h : process_entity_step c m s e = .ok s1) :
    run_entities c m s (e :: rest) = run_entities c m s1 rest := by
  rw [run_entities, h]

/-- Unfolding one failing loop iteration. -/
theorem run_entities_cons_error (c : Point) (m : ℝ) (s : ProcState) (e : Entity)
    (rest : List Entity) (msg : String)
    (h : process_entity_step c m s e = .error msg) :
    run_entities c m s (e :: rest) = .error msg := by
  rw [run_entities, h]

/-- A recognised entity with points but without a layer attribute makes the
    loop iteration raise (the unguarded layer read of the record builder). -/
theorem step_missing_layer (c : Point) (m : ℝ) (s : ProcState) (e : Entity)
    (hr : is_recognized e = true) (hp : (get_entity_points e).isEmpty = false)
    (hl : e.layer = none) :
    process_entity_step c m s e = .error "AttributeError: layer" := by
  simp [process_entity_step, hr, hp, hl]

/-- A recognised entity with points and a layer is classified and appended
    to the partition selected by the verdict. -/
theorem step_processed (c : Point) (m : ℝ) (s : ProcState) (e : Entity) (ly : String)
    (hr : is_recognized e = true) (hp : (get_entity_points e).isEmpty = false)
    (hl : e.layer = some ly) :
    process_entity_step c m s e = .ok
      (if (is_phantom_entity e (get_entity_points e) c m).1 then
        ⟨s.valid_entities, s.phantom_entities ++ [processed_of c m e ly]⟩
      else ⟨s.valid_entities ++ [processed_of c m e ly], s.phantom_entities⟩) := by
  simp [process_entity_step, hr, hp, hl, processed_of]

/-- With every layer attribute present the loop completes. -/
theorem run_entities_layers_ok (c : Point) (m : ℝ) (es : List Entity) :
    ∀ s : ProcState, (∀ e ∈ es, e.layer.isSome = true) →
      ∃ s2, run_entities c m s es = .ok s2 := by
  induction es with
  | nil => exact fun s _ => ⟨s, rfl⟩
  | cons e rest ih =>
    intro s hall
    have hrest : ∀ x ∈ rest, x.layer.isSome = true := fun x hx => hall x (by simp [hx])
    by_cases hr : is_recognized e = false
    · rw [run_entities_cons_ok c m s e rest s (step_unrecognized c m s e hr)]
      exact ih s hrest
    · by_cases hp : (get_entity_points e).isEmpty
      · rw [run_entities_cons_ok c m s e rest s (step_empty_points c m s e hp)]
        exact ih s hrest
      · have hr2 : is_recognized e = true := by simpa using hr
        have hp2 : (get_entity_points e).isEmpty = false := by simpa using hp
        obtain ⟨ly, hly⟩ := Option.isSome_iff_exists.mp (hall e (by simp))
        rw [run_entities_cons_ok c m s e rest _ (step_processed c m s e ly hr2 hp2 hly)]
        exact ih _ hrest

/-- The number of records produced by the loop equals the number of
    classified (recognised, nonempty-sample) entities. -/
theorem run_entities_count (c : Point) (m : ℝ) (es : List Entity) :
    ∀ s s2 : ProcState, run_entities c m s es = .ok s2 →
      s2.valid_entities.length + s2.phantom_entities.length =
        s.valid_entities.length + s.phantom_entities.length +
          es.countP counts_processed := by
  induction es with
  | nil =>
    intro s s2 h
    rw [run_entities_nil] at h
    cases h
    simp
  | cons e rest ih =>
    intro s s2 h
    by_cases hr : is_recognized e = false
    · rw [run_entities_cons_ok c m s e rest s (step_unrecognized c m s e hr)] at h
      have hc : counts_processed e = false := by simp [counts_processed, hr]
      rw [ih s s2 h, List.countP_cons, hc]
      simp
    · by_cases hp : (get_entity_points e).isEmpty
      · rw [run_entities_cons_ok c m s e rest s (step_empty_points c m s e hp)] at h
        have hc : counts_processed e = false := by simp [counts_processed, hp]
        rw [ih s s2 h, List.countP_cons, hc]
        simp
      · have hr2 : is_recognized e = true := by simpa using hr
        have hp2 : (get_entity_points e).isEmpty = false := by simpa using hp
        have hc : counts_processed e = true := by simp [counts_processed, hr2, hp2]
        cases hly : e.layer with
        | none =>
          rw [run_entities_cons_error c m s e rest _
            (step_missing_layer c m s e hr2 hp2 hly)] at h
          cases h
        | some ly =>
          rw [run_entities_cons_ok c m s e rest _
            (step_processed c m s e ly hr2 hp2 hly)] at h
          rw [List.countP_cons, hc]
          cases hb : (is_phantom_entity e (get_entity_points e) c m).1 with
          | false =>
            rw [hb] at h
            simp only [Bool.false_eq_true, if_false] at h
            rw [ih _ s2 h]
            simp
            omega
          | true =>
            rw [hb] at h
            simp only [if_true] at h
            rw [ih _ s2 h]
            simp
            omega

/-! ### Claim C9 -/

/-- Claim C9 counterexample: an input consisting of one unrecognised entity
    (a spline) has no recognised primitives and the analysis succeeds, but
    the reported total_entities is not zero — so not all entity counts are
    zero for an input with no recognised primitives. -/
theorem C9_counterexample :
    (process_dxf_file [spline1]).isOk = true ∧
    result_total_entities (process_dxf_file [spline1]) ≠ 0 := by
  rw [eval_spline]
  exact ⟨rfl, by simp [result_total_entities]⟩

/-- Claim C9 (amended): for an input with no recognised primitives the
    analysis succeeds with fallback center (0,0) and max_dimension 1000, the
    degenerate bounding box, zero valid and phantom counts and zero totals —
    while total_entities equals the number of input entities (zero only when
    the input itself is empty). -/
theorem C9_empty_design (es : List Entity)
    (h : ∀ e ∈ es, is_recognized e = false) :
    process_dxf_file es =
      .ok ⟨es.length, 0, 0, ⟨0, 0⟩, 1000, ⟨0, 0, 0, 0⟩, 0, 0, [], []⟩ := by
  have hs := stats_unrecognized es h
  have hr := run_entities_skip_all ⟨0, 0⟩ 1000 reset_lists es h
  simp [process_dxf_file, hs, hr, finalize_reset]

/-- Witness for C9 at the single-spline input. -/
theorem C9_empty_design_witness :
    process_dxf_file [spline1] =
      .ok ⟨1, 0, 0, ⟨0, 0⟩, 1000, ⟨0, 0, 0, 0⟩, 0, 0, [], []⟩ :=
  C9_empty_design [spline1]
    (by intro e he; simp only [List.mem_singleton] at he; rw [he]; decide)

/-! ### Claim C8 -/

/-- Claim C8 counterexample: a line whose layer attribute is missing is
    degraded to a phantom verdict by the classifier, yet the batch does not
    continue — the unguarded layer read of the record builder aborts the
    whole run, and the following well-formed line is never processed. -/
theorem C8_counterexample :
    process_dxf_file [bad_line, good_line] = .failure "AttributeError: layer" ∧
    is_phantom_entity bad_line (get_entity_points bad_line) ⟨0, 0⟩ 1000 =
      (true, "Error procesando entidad: missing layer attribute") := by
  constructor
  · have h1 : is_recognized bad_line = true := by decide
    have h2 : (get_entity_points bad_line).isEmpty = false := rfl
    have h3 : bad_line.layer = none := rfl
    have hstep := step_missing_layer (get_design_statistics [bad_line, good_line]).1
      (get_design_statistics [bad_line, good_line]).2 reset_lists bad_line h1 h2 h3
    rw [process_dxf_file, run_entities_cons_error _ _ _ _ _ _ hstep]
  · simp [is_phantom_entity, bad_line, get_entity_points]

/-- Claim C8 (amended): the classifier itself never propagates a failure —
    a missing layer attribute degrades to a phantom verdict with a
    descriptive reason — and when every entity carries its layer attribute
    the batch runs to completion; a missing layer attribute, however, aborts
    the batch from the unguarded layer read outside the classifier (see the
    counterexample). -/
theorem C8_classifier_degrades (e : Entity) (pts : List Point) (dc : Point)
    (md : ℝ) (es : List Entity)
    (hp : pts.isEmpty = false) (hl : e.layer = none)
    (hall : ∀ x ∈ es, x.layer.isSome = true) :
    is_phantom_entity e pts dc md =
      (true, "Error procesando entidad: missing layer attribute") ∧
    (process_dxf_file es).isOk = true := by
  constructor
  · simp [is_phantom_entity, hp, hl]
  · obtain ⟨s2, hs2⟩ := run_entities_layers_ok (get_design_statistics es).1
      (get_design_statistics es).2 es reset_lists hall
    simp [process_dxf_file, hs2, AnalysisResult.isOk]

/-- Witness for C8 at a missing-layer line and the empty batch. -/
theorem C8_classifier_degrades_witness :
    is_phantom_entity bad_line [⟨1, 1⟩, ⟨2, 2⟩] ⟨0, 0⟩ 1000 =
      (true, "Error procesando entidad: missing layer attribute") ∧
    (process_dxf_file []).isOk = true :=
  C8_classifier_degrades bad_line [⟨1, 1⟩, ⟨2, 2⟩] ⟨0, 0⟩ 1000 [] rfl rfl
    (by intro x hx; simp at hx)

/-! ### Claim C10 -/

/-- Claim C10: total_entities is at least valid_entities + phantom_entities,
    strictly greater whenever the input holds an unrecognised entity or a
    recognised one whose sampling is empty — such entities are counted in
    the total but partitioned nowhere. -/
theorem C10_total_count (es : List Entity) (r : AnalysisOk)
    (h : process_dxf_file es = .ok r) :
    r.valid_count + r.phantom_count ≤ r.total_entities ∧
    ((∃ e ∈ es, is_recognized e = false ∨ (get_entity_points e).isEmpty = true) →
      r.valid_count + r.phantom_count < r.total_entities) := by
  rcases hrun : run_entities (get_design_statistics es).1
      (get_design_statistics es).2 reset_lists es with msg | s
  · rw [process_dxf_file] at h
    rw [hrun] at h
    cases h
  · rw [process_dxf_file] at h
    rw [hrun] at h
    have hr : finalize es.length (get_design_statistics es).1
        (get_design_statistics es).2 s = r := by
      cases h
      rfl
    have hcount := run_entities_count (get_design_statistics es).1
      (get_design_statistics es).2 es reset_lists s hrun
    have hvc : r.valid_count = s.valid_entities.length := by rw [← hr]; rfl
    have hpc : r.phantom_count = s.phantom_entities.length := by rw [← hr]; rfl
    have hte : r.total_entities = es.length := by rw [← hr]; rfl
    rw [hvc, hpc, hte]
    rw [reset_lists] at hcount
    simp only [List.length_nil, Nat.zero_add] at hcount
    rw [hcount]
    constructor
    · exact List.countP_le_length counts_processed
    · rintro ⟨e, he, hcase⟩
      have hce : counts_processed e = false := by
        rcases hcase with h1 | h1 <;> simp [counts_processed, h1]
      have hne : es.countP counts_processed ≠ es.length := by
        intro hcp
        have := List.countP_eq_length.mp hcp e he
        rw [hce] at this
        cases this
      exact Nat.lt_of_le_of_ne (List.countP_le_length counts_processed) hne

/-- Witness for C10 at the single-spline input. -/
theorem C10_total_count_witness :
    result_valid_count (process_dxf_file [spline1]) +
      result_phantom_count (process_dxf_file [spline1]) <
    result_total_entities (process_dxf_file [spline1]) := by
  have h := (C10_total_count [spline1]
    ⟨1, 0, 0, ⟨0, 0⟩, 1000, ⟨0, 0, 0, 0⟩, 0, 0, [], []⟩ eval_spline).2
    ⟨spline1, by simp, Or.inl (by decide)⟩
  rw [eval_spline]
  exact h

/-! ### Claim C7 -/

/-- The loop invariant: every record in the valid list is marked valid and
    every record in the phantom list is marked invalid. -/
theorem run_entities_validity (c : Point) (m : ℝ) (es : List Entity) :
    ∀ s s2 : ProcState, run_entities c m s es = .ok s2 →
      (∀ p ∈ s.valid_entities, p.is_valid = true) →
      (∀ p ∈ s.phantom_entities, p.is_valid = false) →
      (∀ p ∈ s2.valid_entities, p.is_valid = true) ∧
      (∀ p ∈ s2.phantom_entities, p.is_valid = false) := by
  induction es with
  | nil =>
    intro s s2 h hv hp
    rw [run_entities_nil] at h
    cases h
    exact ⟨hv, hp⟩
  | cons e rest ih =>
    intro s s2 h hv hp
    by_cases hr : is_recognized e = false
    · rw [run_entities_cons_ok c m s e rest s (step_unrecognized c m s e hr)] at h
      exact ih s s2 h hv hp
    · by_cases hpe : (get_entity_points e).isEmpty
      · rw [run_entities_cons_ok c m s e rest s (step_empty_points c m s e hpe)] at h
        exact ih s s2 h hv hp
      · have hr2 : is_recognized e = true := by simpa using hr
        have hp2 : (get_entity_points e).isEmpty = false := by simpa using hpe
        cases hly : e.layer with
        | none =>
          rw [run_entities_cons_error c m s e rest _
            (step_missing_layer c m s e hr2 hp2 hly)] at h
          cases h
        | some ly =>
          rw [run_entities_cons_ok c m s e rest _
            (step_processed c m s e ly hr2 hp2 hly)] at h
          cases hb : (is_phantom_entity e (get_entity_points e) c m).1 with
          | false =>
            rw [hb] at h
            simp only [Bool.false_eq_true, if_false] at h
            refine ih _ s2 h ?_ hp
            intro p hpmem
            rcases List.mem_append.mp hpmem with h1 | h1
            · exact hv p h1
            · rcases List.mem_singleton.mp h1 with rfl
              simp [processed_of, hb]
          | true =>
            rw [hb] at h
            simp only [if_true] at h
            refine ih _ s2 h hv ?_
            intro p hpmem
            rcases List.mem_append.mp hpmem with h1 | h1
            · exact hp p h1
            · rcases List.mem_singleton.mp h1 with rfl
              simp [processed_of, hb]

/-- Claim C7: total_mm is the 2-decimal rounding of the summed length of
    exactly the records marked valid (the phantom partition is filtered out
    and contributes nothing), and total_m is the same un-rounded sum divided
    by 1000, rounded to 3 decimals. -/
theorem C7_totals (es : List Entity) (r : AnalysisOk)
    (h : process_dxf_file es = .ok r) :
    (∀ p ∈ r.valid, p.is_valid = true) ∧
    (∀ p ∈ r.phantom, p.is_valid = false) ∧
    r.total_mm = round_to 2
      (((r.valid ++ r.phantom).filter (fun p => p.is_valid)).map
        ProcessedEntity.length).sum ∧
    r.total_m = round_to 3
      ((((r.valid ++ r.phantom).filter (fun p => p.is_valid)).map
        ProcessedEntity.length).sum / 1000) := by
  rcases hrun : run_entities (get_design_statistics es).1
      (get_design_statistics es).2 reset_lists es with msg | s
  · rw [process_dxf_file] at h
    rw [hrun] at h
    cases h
  · rw [process_dxf_file] at h
    rw [hrun] at h
    have hr : finalize es.length (get_design_statistics es).1
        (get_design_statistics es).2 s = r := by
      cases h
      rfl
    have hinv := run_entities_validity (get_design_statistics es).1
      (get_design_statistics es).2 es reset_lists s hrun
      (by intro p hp; simp [reset_lists] at hp)
      (by intro p hp; simp [reset_lists] at hp)
    have hvalid : r.valid = s.valid_entities := by rw [← hr]; rfl
    have hphantom : r.phantom = s.phantom_entities := by rw [← hr]; rfl
    have hfil : (r.valid ++ r.phantom).filter (fun p => p.is_valid) =
        s.valid_entities := by
      rw [hvalid, hphantom, List.filter_append,
        List.filter_eq_self.mpr (fun a ha => hinv.1 a ha),
        List.filter_eq_nil_iff.mpr (fun a ha => by simp [hinv.2 a ha]),
        List.append_nil]
    have hmm : r.total_mm =
        round_to 2 ((s.valid_entities.map ProcessedEntity.length).sum) := by
      rw [← hr]
      rfl
    have hm : r.total_m =
        round_to 3 (((s.valid_entities.map ProcessedEntity.length).sum) / 1000) := by
      rw [← hr]
      rfl
    refine ⟨by rw [hvalid]; exact hinv.1, by rw [hphantom]; exact hinv.2, ?_, ?_⟩
    · rw [hmm, hfil]
    · rw [hm, hfil]

/-- Witness for C7 at the empty input. -/
theorem C7_totals_witness :
    (0 : ℝ) = round_to 2
      (((([] : List ProcessedEntity) ++ []).filter
        (fun p : ProcessedEntity => p.is_valid)).map
        ProcessedEntity.length).sum := by
  have h := C7_totals [] ⟨0, 0, 0, ⟨0, 0⟩, 1000, ⟨0, 0, 0, 0⟩, 0, 0, [], []⟩ eval_empty
  exact h.2.2.1

/-! ### Claim C5 -/

/-- Claim C5: a circle samples to exactly 16 points, the i-th at angle
    2·pi·i/16 counter-clockwise from the positive x-axis; every sample lies
    at distance r from the center; and the reported length is the closed
    form 2·pi·r whatever point list is handed to the length calculator (the
    length is not derived from the samples). -/
theorem C5_circle (e : Entity) (c : Point) (r : ℝ)
    (hdata : e.data = .circle c r) (hr : 0 ≤ r) :
    (get_entity_points e).length = 16 ∧
    (∀ i : ℕ, i < 16 → (get_entity_points e)[i]? =
      some ⟨c.x + r * Real.cos (2 * Real.pi * i / 16),
            c.y + r * Real.sin (2 * Real.pi * i / 16)⟩) ∧
    (∀ p ∈ get_entity_points e, p.distance_to c = r) ∧
    (∀ pts, calculate_entity_length e pts = 2 * Real.pi * r) := by
  have hpts : get_entity_points e =
      (List.range 16).map (fun i : ℕ =>
        (⟨c.x + r * Real.cos (2 * Real.pi * i / 16),
          c.y + r * Real.sin (2 * Real.pi * i / 16)⟩ : Point)) := by
    rw [get_entity_points.eq_def, hdata]
  refine ⟨by simp [hpts], ?_, ?_, ?_⟩
  · intro i hi
    simp [hpts, List.getElem?_map, List.getElem?_range hi]
  · intro p hp
    rw [hpts] at hp
    obtain ⟨i, hi, rfl⟩ := List.mem_map.mp hp
    have hd : Point.distance_to
        ⟨c.x + r * Real.cos (2 * Real.pi * i / 16),
         c.y + r * Real.sin (2 * Real.pi * i / 16)⟩ c =
        Real.sqrt ((c.x + r * Real.cos (2 * Real.pi * i / 16) - c.x) ^ 2 +
          (c.y + r * Real.sin (2 * Real.pi * i / 16) - c.y) ^ 2) := rfl
    have h1 : (c.x + r * Real.cos (2 * Real.pi * i / 16) - c.x) ^ 2 +
        (c.y + r * Real.sin (2 * Real.pi * i / 16) - c.y) ^ 2 = r ^ 2 := by
      have hs := Real.sin_sq_add_cos_sq (2 * Real.pi * i / 16)
      nlinarith [hs]
    rw [hd, h1, Real.sqrt_sq hr]
  · intro pts
    simp [calculate_entity_length, hdata]

/-- Witness for C5 at the unit circle. -/
theorem C5_circle_witness :
    (get_entity_points circle0).length = 16 ∧
    calculate_entity_length circle0 [] = 2 * Real.pi * 1 := by
  have h := C5_circle circle0 ⟨0, 0⟩ 1 rfl (by norm_num)
  exact ⟨h.1, h.2.2.2 []⟩

/-! ### Claim C6 -/

/-- Claim C6: an arc samples to exactly 17 points at angles
    start + (end - start)·i/16 for i = 0..16, the angles converted from
    degrees to radians and the signed difference used raw; the first and
    last samples are the arc's start and end positions; and the reported
    length is the closed form abs(end - start)·r in radians, whatever point
    list is handed to the length calculator. -/
theorem C6_arc (e : Entity) (c : Point) (r sa ea : ℝ)
    (hdata : e.data = .arc c r sa ea) :
    (get_entity_points e).length = 17 ∧
    (∀ i : ℕ, i < 17 → (get_entity_points e)[i]? =
      some ⟨c.x + r * Real.cos (radians sa + (radians ea - radians sa) * i / 16),
            c.y + r * Real.sin (radians sa + (radians ea - radians sa) * i / 16)⟩) ∧
    (get_entity_points e)[0]? =
      some ⟨c.x + r * Real.cos (radians sa), c.y + r * Real.sin (radians sa)⟩ ∧
    (get_entity_points e)[16]? =
      some ⟨c.x + r * Real.cos (radians ea), c.y + r * Real.sin (radians ea)⟩ ∧
    (∀ pts, calculate_entity_length e pts = |radians ea - radians sa| * r) := by
  have hpts : get_entity_points e =
      (List.range 17).map (fun i : ℕ =>
        (⟨c.x + r * Real.cos (radians sa + (radians ea - radians sa) * i / 16),
          c.y + r * Real.sin (radians sa + (radians ea - radians sa) * i / 16)⟩ : Point)) := by
    rw [get_entity_points.eq_def, hdata]
  have hmap : ∀ i : ℕ, i < 17 → (get_entity_points e)[i]? =
      some ⟨c.x + r * Real.cos (radians sa + (radians ea - radians sa) * i / 16),
            c.y + r * Real.sin (radians sa + (radians ea - radians sa) * i / 16)⟩ := by
    intro i hi
    simp [hpts, List.getElem?_map, List.getElem?_range hi]
  refine ⟨by simp [hpts], hmap, ?_, ?_, ?_⟩
  · rw [hmap 0 (by norm_num)]
    have h0 : radians sa + (radians ea - radians sa) * ((0 : ℕ) : ℝ) / 16 =
        radians sa := by
      push_cast
      ring
    rw [h0]
  · rw [hmap 16 (by norm_num)]
    have h16 : radians sa + (radians ea - radians sa) * ((16 : ℕ) : ℝ) / 16 =
        radians ea := by
      push_cast
      ring
    rw [h16]
  · intro pts
    simp [calculate_entity_length, hdata]

/-- Witness for C6 at a quarter arc of radius 2. -/
theorem C6_arc_witness :
    (get_entity_points arc0).length = 17 ∧
    calculate_entity_length arc0 [] = |radians 90 - radians 0| * 2 := by
  have h := C6_arc arc0 ⟨0, 0⟩ 2 0 90 rfl
  exact ⟨h.1, h.2.2.2.2 []⟩

end Backend
